import Mathlib

/-!
Shallow embedding of the bountyRepo user-registration/login API.

Source files embedded:
- `src/routes/authRoutes.js` — the register and login handlers;
- `src/middlewares/auth.js` — the token-checking middleware;
- `src/middlewares/validation.js` — `validateUser` and `validateLogin`;
- `src/unnamed/part_000` (models/User.js) — the mongoose user schema.

The third-party libraries the handlers call (bcryptjs, jsonwebtoken,
mongoose persistence) are not part of the repository; they are modelled
from the spec, each with a doc comment saying so.
-/

namespace BountyRepo

/-! ### bcrypt model -/

/-- Character for a single decimal digit. -/
def digitChar (d : Nat) : Char := Char.ofNat (48 + d)

/-- Decimal digit characters of a salt value (least-significant first). -/
def saltChars (s : Nat) : List Char := (Nat.digits 10 s).map digitChar

/-- One-way scrambling of a single plaintext character inside the digest body. -/
def shiftChar (c : Char) : Char := Char.ofNat ((c.toNat + 13) % 55296)

/-- Modelled from the spec: `bcrypt.hash` (bcryptjs library, not under `src/`).
Spec 4.2: "produces a salted one-way digest; same input yields different
output across calls (salt is random per call)". The digest follows the
bcrypt layout: an algorithm/cost header, the embedded salt, then a body
derived from the plaintext. The salt is an explicit argument standing for
the random salt bcrypt draws on each call. -/
def bcryptHash (plaintext : String) (salt : Nat) : String :=
  ⟨"$2b$10$".data ++ saltChars salt ++ '$' :: plaintext.data.map shiftChar⟩

/-- Modelled from the spec: `bcrypt.compare` (bcryptjs library, not under
`src/`). Spec 4.2: "verify(plaintext, digest): returns boolean match".
It extracts the salt embedded in the digest and checks that re-hashing the
candidate plaintext with that salt reproduces the digest. -/
def bcryptCompare (plaintext digest : String) : Bool :=
  let ds := (digest.data.drop 7).takeWhile Char.isDigit
  bcryptHash plaintext (Nat.ofDigits 10 (ds.map (fun c => c.toNat - 48))) == digest

/-! ### jsonwebtoken model -/

/-- Payload signed by the login handler: `jwt.sign({ userId: user._id,
email: user.email }, ...)`. The `role` field is `Option` so that both the
payload the code actually signs (no role) and the payload the spec
describes (with role) are representable. -/
structure Claims where
  userId : Nat
  email : Option String
  role : Option String
deriving DecidableEq, Repr

/-- A signed token: the claims, an optional absolute expiry (jsonwebtoken
adds an `exp` claim only when `expiresIn` is passed), and the signing key
the signature binds. -/
structure Token where
  claims : Claims
  exp : Option Nat
  key : String
deriving DecidableEq, Repr

/-- Modelled from the spec: `jwt.sign` (jsonwebtoken library, not under
`src/`). Spec 4.3: "produces a signed token binding [the claims], expiring
after ttl". When no `expiresIn` option is passed — as in
`src/routes/authRoutes.js` — the token carries no expiry. -/
def jwtSign (c : Claims) (key : String) (expiresIn : Option Nat) (now : Nat) : Token :=
  { claims := c, exp := expiresIn.map (fun ttl => now + ttl), key := key }

/-- Modelled from the spec: `jwt.verify` (jsonwebtoken library, not under
`src/`). Spec 4.3: "fails with AuthError if signature invalid, token
malformed, or expired. On success returns the embedded identity claims."
Failure is a thrown error, modelled as `Except.error` with the library's
message. -/
def jwtVerify (t : Token) (key : String) (now : Nat) : Except String Claims :=
  if t.key = key then
    match t.exp with
    | some e => if e ≤ now then .error "jwt expired" else .ok t.claims
    | none => .ok t.claims
  else .error "invalid signature"

/-! ### Data model: the mongoose User schema (src/unnamed/part_000) -/

/-- User document per the schema in `src/unnamed/part_000`: `username`,
`email`, `password`, `age` all optional (no `required`, no `unique`
constraint), `role` a `String` with `default: 'user'`. `_id` is assigned by
the store on creation. -/
structure UserDoc where
  _id : Nat
  username : Option String
  email : Option String
  password : Option String
  age : Option Int
  role : String
deriving DecidableEq, Repr

/-- The credential store: the single user collection. The schema declares
no unique index, so the store enforces no uniqueness. -/
abbrev Store := List UserDoc

/-- Modelled from the spec: `User.findOne({ email })` (mongoose, not under
`src/`): returns the first stored document whose `email` equals the query
value, or nothing. When the query value is absent (`undefined`), mongoose
drops the condition and the first document of the collection matches. -/
def findOne (store : Store) (email : Option String) : Option UserDoc :=
  match email with
  | none => store.head?
  | some e => store.find? (fun u => u.email == some e)

/-! ### Request bodies and route results -/

/-- JSON request body as the handlers destructure it. Fields a client may
send; absent fields are `none` (`undefined`). -/
structure ReqBody where
  username : Option String
  email : Option String
  password : Option String
  role : Option String
  age : Option Int
deriving DecidableEq, Repr

/-- Result of the register handler in `src/routes/authRoutes.js`:
`res.status(201).json({ message: 'User created successfully', user: user })`
on success — the whole user document is serialized into the body — or the
catch-all `res.status(500).json({ error: error.message })`. -/
inductive RegisterResult where
  | created (user : UserDoc)
  | serverError (msg : String)
deriving DecidableEq, Repr

/-- HTTP status of a register response. -/
def RegisterResult.status : RegisterResult → Nat
  | .created _ => 201
  | .serverError _ => 500

/-- Result of the login handler: `res.json({ message: 'Login successful',
token, user })` — status 200, whole user document serialized — or the
catch-all 500. -/
inductive LoginResult where
  | success (token : Token) (user : UserDoc)
  | serverError (msg : String)
deriving DecidableEq, Repr

/-- HTTP status of a login response. -/
def LoginResult.status : LoginResult → Nat
  | .success _ _ => 200
  | .serverError _ => 500

/-! ### Route handlers (src/routes/authRoutes.js) -/

/-- The register handler, `router.post('/register')` in
`src/routes/authRoutes.js`. It destructures `{ username, email, password }`
from the body (every other body field, `role` and `age` included, is
ignored), hashes the password with bcrypt, builds
`new User({ username, email, password: hashedPassword })` — so `role` takes
the schema default and `age` stays unset — saves it, and responds 201 with
the full user document. There is no uniqueness check and no validation in
the route. The only throwing step is `bcrypt.hash` on a missing password
(bcryptjs rejects non-string input), which the `try/catch` turns into a
500. `salt` is the random salt bcrypt draws; `nextId` the id the store
assigns. Returns the response and the updated store. -/
def register (body : ReqBody) (store : Store) (salt nextId : Nat) :
    RegisterResult × Store :=
  match body.password with
  | none => (.serverError "Illegal arguments: undefined, number", store)
  | some pw =>
    let user : UserDoc :=
      { _id := nextId, username := body.username, email := body.email,
        password := some (bcryptHash pw salt), age := none, role := "user" }
    (.created user, store ++ [user])

/-- The login handler, `router.post('/login')` in
`src/routes/authRoutes.js`. It looks the user up by email; when no user
matches, `user.password` throws a TypeError on `null`, caught as a 500.
`bcrypt.compare` is awaited but its result `isValidPassword` is never
checked: the handler proceeds to sign and return a token regardless.
A missing password (or a stored user without one) makes `bcrypt.compare`
reject, caught as a 500. The token is signed with the string literal
`'hardcoded-secret'` and no `expiresIn` option. -/
def login (body : ReqBody) (store : Store) (now : Nat) : LoginResult :=
  match findOne store body.email with
  | none => .serverError "Cannot read properties of null (reading 'password')"
  | some user =>
    match body.password, user.password with
    | some pw, some digest =>
      let _isValidPassword := bcryptCompare pw digest
      let token := jwtSign { userId := user._id, email := user.email, role := none }
        "hardcoded-secret" none now
      .success token user
    | _, _ => .serverError "Illegal arguments: undefined, string"

/-! ### Auth middleware (src/middlewares/auth.js) -/

/-- The `Authorization` header as the middleware reads it with
`req.header('Authorization')`: absent, the serialized token alone, or the
spec's transport `Bearer ` followed by the serialized token. -/
inductive AuthHeader where
  | missing
  | rawToken (t : Token)
  | bearer (t : Token)
deriving DecidableEq, Repr

/-- Modelled from the spec: `jwt.verify` applied to a raw header string
(jsonwebtoken library, not under `src/`). Spec 4.3: verification "fails
with AuthError if signature invalid, token malformed, or expired". An
absent header hands `undefined` to the library, which throws "jwt must be
provided"; the string `Bearer <token>` is not itself a well-formed token,
so the library throws "jwt malformed"; only the bare serialized token is
parsed and checked against the key. -/
def jwtVerifyHeader (h : AuthHeader) (key : String) (now : Nat) :
    Except String Claims :=
  match h with
  | .missing => .error "jwt must be provided"
  | .bearer _ => .error "jwt malformed"
  | .rawToken t => jwtVerify t key now

/-- Outcome of the middleware: either `req.user` is set and `next()` runs
the handler, or the `jwt.verify` error escapes — `src/middlewares/auth.js`
has no `try/catch` and writes no 401, so the throw propagates to Express's
default error handling instead of producing a 401 response. -/
inductive MwOutcome where
  | proceed (claims : Claims)
  | uncaught (msg : String)
deriving DecidableEq, Repr

/-- The middleware from `src/middlewares/auth.js`: it passes the whole
`Authorization` header value — without stripping any `Bearer ` prefix — to
`jwt.verify` with the string literal `'hardcoded-secret'`. -/
def authMiddleware (h : AuthHeader) (now : Nat) : MwOutcome :=
  match jwtVerifyHeader h "hardcoded-secret" now with
  | .ok c => .proceed c
  | .error e => .uncaught e

/-! ### Validation middleware (src/middlewares/validation.js) -/

/-- Outcome of a validation middleware: a direct JSON error response, or
`next()` passing the request on. -/
inductive ValidationOutcome where
  | rejected (status : Nat) (message : String)
  | next
deriving DecidableEq, Repr

/-- JavaScript falsiness of an optional string field: `undefined` and the
empty string are falsy. -/
def falsy : Option String → Bool
  | none => true
  | some s => s.isEmpty

/-- `validateUser` from `src/middlewares/validation.js`: its only check is
`if (!username || !email || !password)`, a presence check; it never looks
at lengths or email shape. -/
def validateUser (body : ReqBody) : ValidationOutcome :=
  if falsy body.username || falsy body.email || falsy body.password then
    .rejected 400 "All fields are required"
  else .next

/-- `validateLogin` from `src/middlewares/validation.js`: it only calls
`next()`. -/
def validateLogin (_ : ReqBody) : ValidationOutcome := .next

/-! ### Sample concrete values used by witnesses and counterexamples -/

/-- The spec's example registration body, section 8:
`{username:"abc", email:"a@b.com", password:"secret1"}`. -/
def sampleBody : ReqBody :=
  { username := some "abc", email := some "a@b.com",
    password := some "secret1", role := none, age := none }

/-- The user document the register handler stores for `sampleBody` with
salt 5 and id 1. -/
def sampleUser : UserDoc :=
  { _id := 1, username := some "abc", email := some "a@b.com",
    password := some (bcryptHash "secret1" 5), age := none, role := "user" }

/-- Login body with the sample email but a wrong password. -/
def wrongPasswordBody : ReqBody :=
  { username := none, email := some "a@b.com",
    password := some "wrong", role := none, age := none }

/-- Login body with an email belonging to no stored user. -/
def unknownEmailBody : ReqBody :=
  { username := none, email := some "nobody@x.com",
    password := some "secret1", role := none, age := none }

/-- Token issued by a login against the store `[sampleUser]` at time 0. -/
def sampleToken : Token :=
  { claims := { userId := 1, email := some "a@b.com", role := none },
    exp := none, key := "hardcoded-secret" }

/-- Registration body carrying a client-supplied `role` of `admin` and an
`age`, to check both are ignored by the handler. -/
def adminBody : ReqBody :=
  { username := some "abc", email := some "a@b.com",
    password := some "secret1", role := some "admin", age := some 30 }

/-- Registration body violating all three spec constraints: username of
length 2, email without an `@`, password of length 3. -/
def badFieldsBody : ReqBody :=
  { username := some "ab", email := some "not-an-email",
    password := some "123", role := none, age := none }

/-- A token whose signature was produced with a key other than the
hardcoded one. -/
def otherKeyToken : Token :=
  { claims := { userId := 1, email := some "a@b.com", role := none },
    exp := none, key := "other-secret" }

/-- The second user document stored when `sampleBody` is registered a
second time, with salt 7 and id 2 — same username and email as
`sampleUser`. -/
def sampleUser2 : UserDoc :=
  { _id := 2, username := some "abc", email := some "a@b.com",
    password := some (bcryptHash "secret1" 7), age := none, role := "user" }

/-- Request body with none of the login fields. -/
def emptyBody : ReqBody :=
  { username := none, email := none, password := none, role := none, age := none }

/-! ### Helper lemmas -/

/-- The digest is strictly longer than the plaintext, so they never
coincide. -/
theorem bcryptHash_ne_plaintext (p : String) (s : Nat) : bcryptHash p s ≠ p := by
  intro h
  have hd : "$2b$10$".data ++ saltChars s ++ '$' :: p.data.map shiftChar = p.data :=
    congrArg String.data h
  have hl := congrArg List.length hd
  simp at hl
  omega

/-- Digit characters are distinct for distinct decimal digits. -/
theorem digitChar_inj : ∀ d₁, d₁ < 10 → ∀ d₂, d₂ < 10 →
    digitChar d₁ = digitChar d₂ → d₁ = d₂ := by decide

/-- Mapping `digitChar` over lists of decimal digits is injective. -/
theorem map_digitChar_inj : ∀ l₁ l₂ : List Nat, (∀ x ∈ l₁, x < 10) →
    (∀ x ∈ l₂, x < 10) → l₁.map digitChar = l₂.map digitChar → l₁ = l₂ := by
  intro l₁
  induction l₁ with
  | nil =>
    intro l₂ _ _ h
    cases l₂ with
    | nil => rfl
    | cons b t₂ => simp at h
  | cons a t ih =>
    intro l₂ h₁ h₂ h
    cases l₂ with
    | nil => simp at h
    | cons b t₂ =>
      rw [List.map_cons, List.map_cons] at h
      injection h with hh ht
      have ha : a < 10 := h₁ a (List.mem_cons_self a t)
      have hb : b < 10 := h₂ b (List.mem_cons_self b t₂)
      rw [digitChar_inj a ha b hb hh,
        ih t₂ (fun x hx => h₁ x (List.mem_cons_of_mem a hx))
          (fun x hx => h₂ x (List.mem_cons_of_mem b hx)) ht]

/-- The salt can be read back off its digit characters. -/
theorem saltChars_inj (s₁ s₂ : Nat) (h : saltChars s₁ = saltChars s₂) : s₁ = s₂ := by
  have hd := map_digitChar_inj (Nat.digits 10 s₁) (Nat.digits 10 s₂)
    (fun x hx => Nat.digits_lt_base (by norm_num) hx)
    (fun x hx => Nat.digits_lt_base (by norm_num) hx) h
  have h10 := congrArg (Nat.ofDigits 10) hd
  rw [Nat.ofDigits_digits, Nat.ofDigits_digits] at h10
  exact_mod_cast h10

/-- Distinct salts give distinct digests of the same plaintext. -/
theorem bcryptHash_salt_inj (p : String) (s₁ s₂ : Nat) (hs : s₁ ≠ s₂) :
    bcryptHash p s₁ ≠ bcryptHash p s₂ := by
  intro h
  apply hs
  apply saltChars_inj
  have hd : "$2b$10$".data ++ (saltChars s₁ ++ '$' :: p.data.map shiftChar) =
      "$2b$10$".data ++ (saltChars s₂ ++ '$' :: p.data.map shiftChar) :=
    congrArg String.data h
  exact List.append_cancel_right (List.append_cancel_left hd)

/-- Register on a body carrying a password always creates and appends the
document built from `username`, `email` and the digest, with the schema
default role. -/
theorem register_created_eq (body : ReqBody) (store : Store) (salt nextId : Nat)
    (pw : String) (hpw : body.password = some pw) :
    register body store salt nextId =
      (.created { _id := nextId, username := body.username, email := body.email,
                  password := some (bcryptHash pw salt), age := none, role := "user" },
       store ++ [{ _id := nextId, username := body.username, email := body.email,
                   password := some (bcryptHash pw salt), age := none, role := "user" }]) := by
  unfold register
  rw [hpw]

/-- Shape of a successful login: the user was found by email and the token
is exactly the one signed with the hardcoded key, no expiry, claims built
from the found user. -/
theorem login_success_eq (body : ReqBody) (store : Store) (now : Nat) (t : Token)
    (u : UserDoc) (h : login body store now = .success t u) :
    findOne store body.email = some u ∧
    t = jwtSign { userId := u._id, email := u.email, role := none }
      "hardcoded-secret" none now := by
  cases hf : findOne store body.email with
  | none => simp [login, hf] at h
  | some w =>
    cases hp : body.password with
    | none => simp [login, hf, hp] at h
    | some pw =>
      cases hq : w.password with
      | none => simp [login, hf, hp, hq] at h
      | some digest =>
        simp only [login, hf, hp, hq] at h
        cases h
        exact ⟨rfl, rfl⟩

/-- Verification of a token signed without `expiresIn` succeeds against the
signing key at any time. -/
theorem jwtVerify_sign_no_exp (c : Claims) (key : String) (now later : Nat) :
    jwtVerify (jwtSign c key none now) key later = .ok c := by
  simp [jwtVerify, jwtSign]

/-! ### Claim theorems -/

/-- Claim C1. Refuted on the code: the register handler responds with the
whole saved user document, whose `password` field holds the stored bcrypt
digest, and the login handler serializes the same full document next to the
token — neither strips the hash before responding. -/
theorem api_responses_expose_password_hash :
    (register sampleBody [] 5 1).1 = .created sampleUser ∧
    sampleUser.password = some (bcryptHash "secret1" 5) ∧
    login sampleBody [sampleUser] 0 = .success sampleToken sampleUser :=
  ⟨rfl, rfl, rfl⟩

/-- Claim C2. Refuted on the code: a login with the right email but a wrong
password succeeds with status 200 and a token, because `isValidPassword` is
never checked, while a login with an email belonging to no user crashes
into the catch-all with status 500 — neither case is the claimed uniform
401 with message `invalid credentials`. -/
theorem login_error_handling_diverges :
    login wrongPasswordBody [sampleUser] 0 = .success sampleToken sampleUser ∧
    (login wrongPasswordBody [sampleUser] 0).status = 200 ∧
    login unknownEmailBody [sampleUser] 0 =
      .serverError "Cannot read properties of null (reading 'password')" ∧
    (login unknownEmailBody [sampleUser] 0).status = 500 :=
  ⟨rfl, rfl, rfl, rfl⟩

/-- Claim C3. Refuted on the code: with no `Authorization` header the
middleware lets the `jwt.verify` error escape uncaught instead of answering
401, a well-formed `Bearer <valid token>` header is handed whole to
`jwt.verify` and dies as malformed instead of proceeding, and only a bare
token — a transport the spec does not describe — reaches the handler. -/
theorem auth_middleware_diverges :
    authMiddleware .missing 0 = .uncaught "jwt must be provided" ∧
    authMiddleware (.bearer sampleToken) 0 = .uncaught "jwt malformed" ∧
    authMiddleware (.rawToken sampleToken) 0 = .proceed sampleToken.claims :=
  ⟨rfl, rfl, rfl⟩

/-- Claim C4. Refuted on the code: registering the same body twice succeeds
both times with 201 — there is no uniqueness check in the handler and no
unique index in the schema — and the store ends up holding two documents
with the same username and email. -/
theorem duplicate_email_registration_succeeds :
    register sampleBody [] 5 1 = (.created sampleUser, [sampleUser]) ∧
    register sampleBody [sampleUser] 7 2 =
      (.created sampleUser2, [sampleUser, sampleUser2]) ∧
    sampleUser2.email = sampleUser.email ∧
    sampleUser2.username = sampleUser.username ∧
    (register sampleBody [sampleUser] 7 2).1.status = 201 :=
  ⟨rfl, rfl, rfl, rfl, rfl⟩

/-- Claim C5. Refuted on the code: `jwt.sign` is called without `expiresIn`,
so every token a successful login issues carries no expiry and still
verifies at every later time — it never fails after the claimed ttl. -/
theorem login_tokens_never_expire (body : ReqBody) (store : Store) (now : Nat)
    (t : Token) (u : UserDoc) (h : login body store now = .success t u) :
    t.exp = none ∧
    ∀ later : Nat, jwtVerify t "hardcoded-secret" later = .ok t.claims := by
  obtain ⟨-, ht⟩ := login_success_eq body store now t u h
  subst ht
  exact ⟨rfl, fun later => jwtVerify_sign_no_exp _ _ _ _⟩

/-- Witness for C5: the token of a concrete successful login has no expiry
and verifies at any later time. -/
theorem login_tokens_never_expire_witness :
    sampleToken.exp = none ∧
    ∀ later : Nat, jwtVerify sampleToken "hardcoded-secret" later = .ok sampleToken.claims :=
  login_tokens_never_expire sampleBody [sampleUser] 0 sampleToken sampleUser rfl

/-- Claim C6. Refuted on the code: every token a successful login issues is
signed with the string literal `hardcoded-secret`, whatever the inputs, and
the middleware rejects any token signed with a different key — the key is a
hardcoded constant, not environment-provided configuration. -/
theorem signing_key_is_hardcoded :
    (∀ (body : ReqBody) (store : Store) (now : Nat) (t : Token) (u : UserDoc),
        login body store now = .success t u → t.key = "hardcoded-secret") ∧
    (∀ (t : Token) (now : Nat), t.key ≠ "hardcoded-secret" →
        authMiddleware (.rawToken t) now = .uncaught "invalid signature") := by
  constructor
  · intro body store now t u h
    obtain ⟨-, ht⟩ := login_success_eq body store now t u h
    subst ht
    rfl
  · intro t now hk
    simp [authMiddleware, jwtVerifyHeader, jwtVerify, hk]

/-- Witness for C6: a concrete login's token carries the hardcoded key, and
a token under another key is rejected by the middleware. -/
theorem signing_key_is_hardcoded_witness :
    sampleToken.key = "hardcoded-secret" ∧
    authMiddleware (.rawToken otherKeyToken) 0 = .uncaught "invalid signature" :=
  ⟨signing_key_is_hardcoded.1 sampleBody [sampleUser] 0 sampleToken sampleUser rfl,
   signing_key_is_hardcoded.2 otherKeyToken 0 (by decide)⟩

/-- Claim C7. Refuted on the code: `validateUser` only checks that the
three fields are present, so a body with a 2-character username, an email
without an `@`, and a 3-character password passes with `next()` instead of
failing with the three listed violations; `validateLogin` checks nothing at
all; and the register route, which is not even wired to `validateUser`,
persists such a body with 201. -/
theorem validation_accepts_invalid_fields :
    badFieldsBody.username = some "ab" ∧ ("ab").length < 3 ∧
    badFieldsBody.email = some "not-an-email" ∧ '@' ∉ "not-an-email".data ∧
    badFieldsBody.password = some "123" ∧ ("123").length < 6 ∧
    validateUser badFieldsBody = .next ∧
    validateLogin emptyBody = .next ∧
    (register badFieldsBody [] 3 1).1.status = 201 :=
  ⟨rfl, by decide, rfl, by decide, rfl, by decide, rfl, rfl, rfl⟩

/-- Counterexample to claim C8 as stated: the payload the login handler
signs is `{ userId, email }` only — at a concrete successful login of a
user whose stored role is `user`, the issued token carries no `role`
claim. -/
theorem login_token_omits_role_claim :
    login sampleBody [sampleUser] 0 = .success sampleToken sampleUser ∧
    sampleUser.role = "user" ∧
    sampleToken.claims.role = none :=
  ⟨rfl, rfl, rfl⟩

/-- Claim C8, amended: every token issued by a successful login binds the
`userId` and `email` claims — but no `role` claim — and verifying it with
the signing key yields claims whose `userId` is the logged-in user's id and
whose `email` is the user's email. -/
theorem login_token_binds_userId_email (body : ReqBody) (store : Store) (now : Nat)
    (t : Token) (u : UserDoc) (h : login body store now = .success t u) :
    jwtVerify t "hardcoded-secret" now = .ok t.claims ∧
    t.claims.userId = u._id ∧ t.claims.email = u.email ∧ t.claims.role = none := by
  obtain ⟨-, ht⟩ := login_success_eq body store now t u h
  subst ht
  exact ⟨jwtVerify_sign_no_exp _ _ _ _, rfl, rfl, rfl⟩

/-- Witness for the amended C8 at a concrete successful login. -/
theorem login_token_binds_userId_email_witness :
    jwtVerify sampleToken "hardcoded-secret" 0 = .ok sampleToken.claims ∧
    sampleToken.claims.userId = sampleUser._id ∧
    sampleToken.claims.email = sampleUser.email ∧
    sampleToken.claims.role = none :=
  login_token_binds_userId_email sampleBody [sampleUser] 0 sampleToken sampleUser rfl

/-- Claim C9. Confirmed: whenever registration stores a document, its
`password` field holds the salted bcrypt digest of the plaintext, the
digest never equals the plaintext, and hashing the same plaintext under two
different salts — the salt is drawn fresh per call — gives two different
digests. -/
theorem register_hashes_password_salted :
    (∀ (body : ReqBody) (store : Store) (salt nextId : Nat) (pw : String)
        (u : UserDoc) (rest : Store), body.password = some pw →
        register body store salt nextId = (.created u, rest) →
        u.password = some (bcryptHash pw salt) ∧ bcryptHash pw salt ≠ pw) ∧
    (∀ (p : String) (s₁ s₂ : Nat), s₁ ≠ s₂ → bcryptHash p s₁ ≠ bcryptHash p s₂) := by
  constructor
  · intro body store salt nextId pw u rest hpw h
    rw [register_created_eq body store salt nextId pw hpw] at h
    injection h with h1 h2
    injection h1 with h1
    subst h1
    exact ⟨rfl, bcryptHash_ne_plaintext pw salt⟩
  · exact fun p s₁ s₂ => bcryptHash_salt_inj p s₁ s₂

/-- Witness for C9 at a concrete registration and two concrete salts. -/
theorem register_hashes_password_salted_witness :
    (sampleUser.password = some (bcryptHash "secret1" 5) ∧
      bcryptHash "secret1" 5 ≠ "secret1") ∧
    bcryptHash "secret1" 3 ≠ bcryptHash "secret1" 5 :=
  ⟨register_hashes_password_salted.1 sampleBody [] 5 1 "secret1" sampleUser
      [sampleUser] rfl rfl,
   register_hashes_password_salted.2 "secret1" 3 5 (by decide)⟩

/-- Claim C10. Confirmed: the register handler builds the new document from
only the body's `username`, `email` and `password`, so whatever `role` or
`age` the client sends, the stored document has the schema default role
`user` and no age — a client cannot self-register as admin. -/
theorem register_role_defaults_to_user (body : ReqBody) (store : Store)
    (salt nextId : Nat) (pw : String) (u : UserDoc) (rest : Store)
    (hpw : body.password = some pw)
    (h : register body store salt nextId = (.created u, rest)) :
    u.role = "user" ∧ u.age = none ∧ u.username = body.username ∧
    u.email = body.email ∧ rest = store ++ [u] := by
  rw [register_created_eq body store salt nextId pw hpw] at h
  injection h with h1 h2
  injection h1 with h1
  subst h1
  exact ⟨rfl, rfl, rfl, rfl, h2.symm⟩

/-- Witness for C10: a body that tries to register as an admin with an age
still yields the default-role, age-free stored document. -/
theorem register_role_defaults_to_user_witness :
    sampleUser.role = "user" ∧ sampleUser.age = none ∧
    sampleUser.username = adminBody.username ∧
    sampleUser.email = adminBody.email ∧
    [sampleUser] = [] ++ [sampleUser] :=
  register_role_defaults_to_user adminBody [] 5 1 "secret1" sampleUser [sampleUser] rfl rfl

end BountyRepo
